import Mathlib

/-!
Shallow embedding of `src/pyinputplus/__init__.py` (PyInputPlus 0.1.0).

The core is `_genericInput`, a prompt-read-validate-retry loop, and its
bound-check helper `_checkLimitAndTimeout`.  Python's dynamic values are
modelled by `PyVal`; a loop run consumes an explicit finite trace of
`(line, clockReading)` pairs, where `clockReading` is the value `time.time()`
would return inside `_checkLimitAndTimeout` on that attempt (the helper reads
the wall clock internally at line 70 of the source).  Every run also produces
a log of observable events (prompts printed, lines read, transform and
validation calls), so that counting claims can be stated exactly.
-/

namespace PyInputPlus

/-- Errors produced by calling a Python value: `typeError` when the value is
not callable, `raised msg` when the underlying callable raised an exception
with message `msg`. -/
inductive PyErr where
  | typeError
  | raised (msg : String)
deriving DecidableEq, Repr

/-- Dynamic (duck-typed) Python values, restricted to the shapes that reach
`_genericInput`'s parameters: `None`, `str`, `int`, `float`, `bool`, sequences
and callables.  Callables map a string argument either to a normal return
value or to a raised-exception message. -/
inductive PyVal where
  | vNone
  | vStr (s : String)
  | vInt (n : ℤ)
  | vFloat (q : ℚ)
  | vBool (b : Bool)
  | vList (l : List String)
  | vCallable (f : String → Except String String)

/-- Calling a Python value on a string argument: a non-callable raises
`TypeError`; a callable either returns or raises. -/
def callPy (v : PyVal) (arg : String) : Except PyErr String :=
  match v with
  | .vCallable f =>
      match f arg with
      | .ok r => .ok r
      | .error m => .error (.raised m)
  | _ => .error .typeError

/-- The `strip` parameter of `_genericInput`: `None`, a bool, or a string of
characters (lines 140-144 of the source). -/
inductive StripPolicy where
  | sNone
  | sBool (b : Bool)
  | sChars (cs : String)
deriving DecidableEq, Repr

/-- The whitespace characters removed by Python's `str.strip()` with no
arguments (ASCII whitespace). -/
def pyWhitespace : List Char := [' ', '\t', '\n', '\r', '\x0b', '\x0c']

/-- Python's `str.strip(chars)`: remove the characters of `cs` from both ends
of the string. -/
def stripCharsList (cs : List Char) (s : String) : String :=
  String.mk (((s.toList.dropWhile (cs.contains ·)).reverse.dropWhile
    (cs.contains ·)).reverse)

/-- The strip step of the loop (source lines 140-144): `strip=None` and
`strip=False` leave the input unchanged, `strip=True` trims whitespace, and a
string strips exactly its characters. -/
def stripInput : StripPolicy → String → String
  | .sNone, s => s
  | .sBool true, s => stripCharsList pyWhitespace s
  | .sBool false, s => s
  | .sChars cs, s => stripCharsList cs.toList s

/-- Result of `_checkLimitAndTimeout` (source lines 50-82): the default value,
one of the two exception objects, or `None` ("caller should do nothing"). -/
inductive CheckResult where
  | useDefault (s : String)
  | timeoutExc
  | retryLimitExc
  | nothing
deriving DecidableEq, Repr

/-- The timeout test of source line 70: `timeout is not None and
startTime + timeout < time.time()`, with the internal `time.time()` reading
passed in as `now`. -/
def timeoutExpired (timeout : Option ℚ) (startTime now : ℚ) : Bool :=
  match timeout with
  | none => false
  | some t => decide (startTime + t < now)

/-- The retry-limit test of source line 76: `limit is not None and
tries >= limit`. -/
def limitReached (limit : Option ℤ) (tries : ℕ) : Bool :=
  match limit with
  | none => false
  | some l => decide (l ≤ (tries : ℤ))

/-- Embedding of `_checkLimitAndTimeout` (source lines 50-82).  The Python
function calls `time.time()` internally; that reading is the explicit `now`
argument here.  Exceptions are returned, not raised, exactly as in the
source. -/
def checkLimitAndTimeout (default : Option String) (startTime : ℚ)
    (timeout : Option ℚ) (tries : ℕ) (limit : Option ℤ) (now : ℚ) :
    CheckResult :=
  if timeoutExpired timeout startTime now then
    match default with
    | some d => .useDefault d
    | none => .timeoutExc
  else if limitReached limit tries then
    match default with
    | some d => .useDefault d
    | none => .retryLimitExc
  else
    .nothing

/-- Observable events of a loop run: prompts and failure messages printed,
lines read, and the calls made to the three caller-supplied functions
(`applyFunc`, `validationFunc`, `postValidateApplyFunc`).  A
`validateCall v r` records validating candidate `v` with outcome `r`
(`none` = accepted, `some msg` = rejected with reason `msg`). -/
inductive Event where
  | printPrompt (s : String)
  | readLine (s : String)
  | printMsg (s : String)
  | applyCall (inp outp : String)
  | validateCall (v : String) (r : Option String)
  | postCall (inp outp : String)
deriving DecidableEq, Repr

/-- Configuration of one loop run, after `_genericInput`'s parameter checks
have passed.  The three function parameters stay dynamic (`PyVal`), as in the
source: `postValidateApplyFunc` in particular is never type-checked. -/
structure LoopConfig where
  prompt : String
  default : Option String
  timeout : Option ℚ
  limit : Option ℤ
  strip : StripPolicy
  applyFunc : Option PyVal
  validationFunc : PyVal
  postValidateApplyFunc : Option PyVal

/-- Outcome of a run of the loop. `okBlank` and `okBoundDefault` return the
default (via the blank short-circuit at line 147, or via a bound with a
default at line 163); `okValidated` returns a validated (possibly
post-transformed) value; the two signals are the raised exceptions;
`uncaught` is an exception escaping from `applyFunc` or
`postValidateApplyFunc` (neither call is wrapped in the `try`); `blocked`
means the input trace was exhausted while `input()` would block;
`configErr` is a `PyInputPlusException` from the parameter checks. -/
inductive Outcome where
  | okBlank (v : String)
  | okBoundDefault (v : String)
  | okValidated (v : String)
  | timeoutSignal
  | retryLimitSignal
  | uncaught
  | blocked
  | configErr (msg : String)
deriving DecidableEq, Repr

/-- Result of one loop iteration: terminate with an outcome, or go around
again (`continue` at source line 166). -/
inductive StepResult where
  | done (o : Outcome)
  | retry

/-- The pre-validation transform step (source lines 151-152): apply
`applyFunc` if present, otherwise pass the input through. -/
def applyStage (applyFunc : Option PyVal) (userInput : String) :
    Except PyErr String :=
  match applyFunc with
  | none => .ok userInput
  | some f => callPy f userInput

/-- The message `print(exc)` shows for a caught exception (source line 165). -/
def errMsg : PyErr → String
  | .typeError => "TypeError"
  | .raised m => m

/-- The `applyCall` event recorded for the pre-validation transform step:
empty when `applyFunc` is absent. -/
def applyLogOf (applyFunc : Option PyVal) (inp outp : String) :
    List Event :=
  match applyFunc with
  | none => []
  | some _ => [.applyCall inp outp]

/-- One iteration of the `while True` loop of `_genericInput` (source lines
132-173), for attempt number `tries` (already incremented, line 137), input
`line`, and clock reading `now` (what `time.time()` returns inside the
bound-check on this attempt).  Returns the step result and the events of the
iteration. -/
def genericIteration (cfg : LoopConfig) (startTime : ℚ) (tries : ℕ)
    (line : String) (now : ℚ) : StepResult × List Event :=
  let userInput := stripInput cfg.strip line
  let base : List Event := [.printPrompt cfg.prompt, .readLine line]
  if userInput = "" ∧ cfg.default.isSome then
    (.done (.okBlank (cfg.default.getD "")), base)
  else
    match applyStage cfg.applyFunc userInput with
    | .error _ => (.done .uncaught, base)
    | .ok candidate =>
      let applyLog : List Event := applyLogOf cfg.applyFunc userInput candidate
      match callPy cfg.validationFunc candidate with
      | .ok _ =>
          match cfg.postValidateApplyFunc with
          | none =>
              (.done (.okValidated candidate),
               base ++ applyLog ++ [.validateCall candidate none])
          | some pv =>
              match callPy pv candidate with
              | .ok r =>
                  (.done (.okValidated r),
                   base ++ applyLog ++
                     [.validateCall candidate none, .postCall candidate r])
              | .error _ =>
                  (.done .uncaught,
                   base ++ applyLog ++ [.validateCall candidate none])
      | .error e =>
          let reason := errMsg e
          let vlog : List Event :=
            base ++ applyLog ++ [.validateCall candidate (some reason)]
          match checkLimitAndTimeout cfg.default startTime cfg.timeout tries
              cfg.limit now with
          | .useDefault d => (.done (.okBoundDefault d), vlog)
          | .timeoutExc => (.done .timeoutSignal, vlog)
          | .retryLimitExc => (.done .retryLimitSignal, vlog)
          | .nothing => (.retry, vlog ++ [.printMsg reason])

/-- The `while True` loop of `_genericInput`, run over a finite trace of
`(line, clockReading)` input events.  `tries` is the count of attempts
already made (0 at entry, line 130).  An exhausted trace means `input()`
blocks: the prompt has been printed and the run is `blocked`. -/
def genericLoop (cfg : LoopConfig) (startTime : ℚ) (tries : ℕ) :
    List (String × ℚ) → Outcome × List Event
  | [] => (.blocked, [.printPrompt cfg.prompt])
  | (line, now) :: rest =>
      match genericIteration cfg startTime (tries + 1) line now with
      | (.done o, log) => (o, log)
      | (.retry, log) =>
          let r := genericLoop cfg startTime (tries + 1) rest
          (r.1, log ++ r.2)

/-- Number of lines read in a run (its `readLine` events). -/
def readCount : List Event → ℕ
  | [] => 0
  | .readLine _ :: es => readCount es + 1
  | _ :: es => readCount es

/-- The applications of `postValidateApplyFunc` recorded in a run, as
(input, output) pairs. -/
def postEvents : List Event → List (String × String)
  | [] => []
  | .postCall i o :: es => (i, o) :: postEvents es
  | _ :: es => postEvents es

/-- The applications of `applyFunc` recorded in a run, as (input, output)
pairs. -/
def applyEvents : List Event → List (String × String)
  | [] => []
  | .applyCall i o :: es => (i, o) :: applyEvents es
  | _ :: es => applyEvents es

/-- The validation calls recorded in a run, as (candidate, result) pairs. -/
def validateEvents : List Event → List (String × Option String)
  | [] => []
  | .validateCall v r :: es => (v, r) :: validateEvents es
  | _ :: es => validateEvents es

/-! ### The dynamic entry point: parameter checks of `_genericInput` -/

/-- Python's `isinstance(v, str)`. -/
def isinstanceStr : PyVal → Bool
  | .vStr _ => true
  | _ => false

/-- Python's `v is None` / `isinstance(v, type(None))`. -/
def isinstanceNone : PyVal → Bool
  | .vNone => true
  | _ => false

/-- Python's `isinstance(v, int)`: `bool` is a subclass of `int`. -/
def isinstanceInt : PyVal → Bool
  | .vInt _ => true
  | .vBool _ => true
  | _ => false

/-- Python's `isinstance(v, float)`. -/
def isinstanceFloat : PyVal → Bool
  | .vFloat _ => true
  | _ => false

/-- Python's `isinstance(v, bool)`. -/
def isinstanceBool : PyVal → Bool
  | .vBool _ => true
  | _ => false

/-- The check `isinstance(v, (FUNC_TYPE, METHOD_DESCRIPTOR_TYPE))` of the
source: `v` is a function. -/
def isinstanceCallable : PyVal → Bool
  | .vCallable _ => true
  | _ => false

/-- Whether `v` is a sequence (list). -/
def isinstanceList : PyVal → Bool
  | .vList _ => true
  | _ => false

/-- The arguments of `_genericInput`, as the dynamic values a Python caller
may pass (source lines 85-87). -/
structure DynArgs where
  prompt : PyVal := .vStr ""
  default : PyVal := .vNone
  blank : PyVal := .vBool false
  timeout : PyVal := .vNone
  limit : PyVal := .vNone
  strip : PyVal := .vBool true
  whitelistRegexes : PyVal := .vNone
  blacklistRegexes : PyVal := .vNone
  applyFunc : PyVal := .vNone
  validationFunc : PyVal := .vNone
  postValidateApplyFunc : PyVal := .vNone

/-- Modelled from the spec: `pysimplevalidate._validateGenericParameters` is
not under `src/` (only its call sites are).  Per the spec, a companion
parameter-validation function is consumed to reject malformed constraint
bundles eagerly: `blank` must be a bool, `strip` a bool, str or None, and the
whitelist/blacklist must be sequences or None. -/
def validateGenericParameters (blank strip whitelist blacklist : PyVal) :
    Except String Unit :=
  if ¬ isinstanceBool blank then
    .error "blank argument must be a bool"
  else if ¬ (isinstanceBool strip ∨ isinstanceStr strip ∨
      isinstanceNone strip) then
    .error "strip argument must be a bool, str, or None"
  else if ¬ (isinstanceNone whitelist ∨ isinstanceList whitelist) then
    .error "whitelistRegexes argument must be a sequence or None"
  else if ¬ (isinstanceNone blacklist ∨ isinstanceList blacklist) then
    .error "blacklistRegexes argument must be a sequence or None"
  else
    .ok ()

/-- The numeric value of a `timeout` argument that passed
`isinstance(timeout, (int, float, type(None)))`, in seconds. -/
def pyNumVal : PyVal → Option ℚ
  | .vInt n => some (n : ℚ)
  | .vFloat q => some q
  | .vBool b => some (if b then 1 else 0)
  | _ => none

/-- The integer value of a `limit` argument that passed
`isinstance(limit, (int, type(None)))`. -/
def pyIntVal : PyVal → Option ℤ
  | .vInt n => some n
  | .vBool b => some (if b then 1 else 0)
  | _ => none

/-- The strip policy denoted by a `strip` argument that passed its check. -/
def pyStripVal : PyVal → StripPolicy
  | .vBool b => .sBool b
  | .vStr s => .sChars s
  | _ => .sNone

/-- The optional string denoted by a `default` argument that passed its
check. -/
def pyOptStr : PyVal → Option String
  | .vStr s => some s
  | _ => none

/-- An optional callable parameter: `None` means absent, anything else is
kept as the dynamic value it is (the source only tests `is not None` before
calling it). -/
def pyOptVal : PyVal → Option PyVal
  | .vNone => none
  | v => some v

/-- The loop configuration assembled from arguments that passed all the
parameter checks. -/
def mkLoopConfig (args : DynArgs) : LoopConfig where
  prompt := match args.prompt with | .vStr s => s | _ => ""
  default := pyOptStr args.default
  timeout := pyNumVal args.timeout
  limit := pyIntVal args.limit
  strip := pyStripVal args.strip
  applyFunc := pyOptVal args.applyFunc
  validationFunc := args.validationFunc
  postValidateApplyFunc := pyOptVal args.postValidateApplyFunc

/-- Embedding of `_genericInput` (source lines 85-173): first the call to
`pysv._validateGenericParameters` (line 111), then the `isinstance` checks of
lines 113-127 in source order, each raising a `PyInputPlusException` before
any prompt is printed or line read; only then `startTime` is taken and the
read-validate-retry loop starts.  Note that `postValidateApplyFunc` has no
check. -/
def genericInput (args : DynArgs) (startTime : ℚ)
    (inputs : List (String × ℚ)) : Outcome × List Event :=
  match validateGenericParameters args.blank args.strip args.whitelistRegexes
      args.blacklistRegexes with
  | .error m => (.configErr m, [])
  | .ok _ =>
    if ¬ isinstanceStr args.prompt then
      (.configErr "prompt argument must be a str", [])
    else if ¬ (isinstanceStr args.default ∨ isinstanceNone args.default) then
      (.configErr "default argument must be a str or None", [])
    else if ¬ (isinstanceInt args.timeout ∨ isinstanceFloat args.timeout ∨
        isinstanceNone args.timeout) then
      (.configErr "timeout argument must be an int or float", [])
    else if ¬ (isinstanceInt args.limit ∨ isinstanceNone args.limit) then
      (.configErr "limit argument must be an int", [])
    else if ¬ (isinstanceStr args.strip ∨ isinstanceNone args.strip ∨
        isinstanceBool args.strip) then
      (.configErr "strip argument must be a str, None, or bool", [])
    else if ¬ isinstanceCallable args.validationFunc then
      (.configErr "validationFunc argument must be a function", [])
    else if ¬ (isinstanceCallable args.applyFunc ∨
        isinstanceNone args.applyFunc) then
      (.configErr "applyFunc argument must be a function", [])
    else
      genericLoop (mkLoopConfig args) startTime 0 inputs

/-! ### Wrapper models: the arguments the typed wrappers bind into their
validation calls -/

/-- The arguments `inputRegex`'s validation lambda passes to
`pysv.validateRegex` for a candidate `value` (source line 359). -/
structure ValidateRegexCall where
  value : String
  regex : String
  flags : ℤ
deriving DecidableEq, Repr

/-- Embedding of the validation lambda built by `inputRegex(regex, flags,
...)` (source line 359): the call it makes to `pysv.validateRegex` on a
candidate `value`.  The source passes the literals `regex=''` and `flags=0`,
ignoring the wrapper's `regex` and `flags` parameters. -/
def inputRegexValidationCall (_regex : String) (_flags : ℤ)
    (value : String) : ValidateRegexCall :=
  { value := value, regex := "", flags := 0 }

/-- The arguments `inputChoice`'s and `inputMenu`'s validation lambdas pass
to `pysv.validateChoice` for a candidate `value` (source lines 248-250 and
268-270). -/
structure ValidateChoiceCall where
  value : String
  choices : List String
  numbered : Bool
  lettered : Bool
  caseSensitive : Bool
deriving DecidableEq, Repr

/-- Embedding of the validation lambda built by `inputChoice(choices, ...,
numbered, lettered, caseSensitive)` (source lines 248-250): the source passes
the literals `numbered=False, lettered=False, caseSensitive=False`, ignoring
the wrapper's parameters. -/
def inputChoiceValidationCall (choices : List String)
    (_numbered _lettered _caseSensitive : Bool) (value : String) :
    ValidateChoiceCall :=
  { value := value, choices := choices, numbered := false, lettered := false,
    caseSensitive := false }

/-- Embedding of the validation lambda built by `inputMenu(choices, ...,
numbered, lettered, caseSensitive)` (source lines 268-270): identical to
`inputChoice`'s, with the same hard-coded literals. -/
def inputMenuValidationCall (choices : List String)
    (_numbered _lettered _caseSensitive : Bool) (value : String) :
    ValidateChoiceCall :=
  { value := value, choices := choices, numbered := false, lettered := false,
    caseSensitive := false }

/-! ### Predicates used in the claims -/

/-- A validation capability that rejects every candidate: every call raises
(the loop's `try` catches any exception from `validationFunc`). -/
def alwaysFails (vf : PyVal) : Prop :=
  ∀ s : String, ∃ e : PyErr, callPy vf s = Except.error e

/-- A pre-validation transform stage that never raises (in particular,
`applyFunc=None`): the attempt always reaches the validation call. -/
def applyTotal (a : Option PyVal) : Prop :=
  ∀ s : String, ∃ r : String, applyStage a s = Except.ok r

/-- What one loop iteration guarantees about its step result and its events:
a blank-default return carries the configured default and performs no
transform or validation call; a bound-default return carries the configured
default and no post-transform; the two signals only occur with no default
configured; a post-transform application is recorded exactly for a validated
return (once, on the accepted candidate). -/
def IterationSpec (cfg : LoopConfig) (s : StepResult) (log : List Event) :
    Prop :=
  match s with
  | .done (.okBlank d) =>
      cfg.default = some d ∧ validateEvents log = [] ∧
      applyEvents log = [] ∧ postEvents log = []
  | .done (.okBoundDefault d) => cfg.default = some d ∧ postEvents log = []
  | .done (.okValidated v) =>
      (cfg.postValidateApplyFunc = none ∧ postEvents log = []) ∨
      ∃ c, postEvents log = [(c, v)] ∧ (c, none) ∈ validateEvents log
  | .done .timeoutSignal => cfg.default = none ∧ postEvents log = []
  | .done .retryLimitSignal => cfg.default = none ∧ postEvents log = []
  | .done .uncaught => postEvents log = []
  | .done .blocked => False
  | .done (.configErr _) => False
  | .retry => postEvents log = []

/-- What a whole loop run guarantees about its outcome and its event log:
default-returning outcomes carry exactly the configured default, the signals
require no default, and the post-transform is recorded exactly once (on the
accepted candidate) for a validated return and never otherwise. -/
def LoopSpec (cfg : LoopConfig) (r : Outcome × List Event) : Prop :=
  (∀ v, r.1 = .okBlank v → cfg.default = some v) ∧
  (∀ v, r.1 = .okBoundDefault v → cfg.default = some v) ∧
  (r.1 = .timeoutSignal → cfg.default = none) ∧
  (r.1 = .retryLimitSignal → cfg.default = none) ∧
  ((∀ v, r.1 ≠ .okValidated v) → postEvents r.2 = []) ∧
  (∀ v, r.1 = .okValidated v →
    (cfg.postValidateApplyFunc = none ∧ postEvents r.2 = []) ∨
    ∃ c, postEvents r.2 = [(c, v)] ∧ (c, none) ∈ validateEvents r.2)

/-- An argument bundle violating one of the shapes `_genericInput` checks
(source lines 111-127): a malformed generic-constraint bundle, or a `prompt`,
`default`, `timeout`, `limit`, `strip`, `validationFunc` or `applyFunc` of
the wrong type.  `postValidateApplyFunc` has no check in the source and so
does not appear here. -/
def badCheckedArg (args : DynArgs) : Prop :=
  (∃ m, validateGenericParameters args.blank args.strip args.whitelistRegexes
      args.blacklistRegexes = .error m) ∨
  isinstanceStr args.prompt = false ∨
  (isinstanceStr args.default = false ∧ isinstanceNone args.default = false) ∨
  (isinstanceInt args.timeout = false ∧ isinstanceFloat args.timeout = false ∧
    isinstanceNone args.timeout = false) ∨
  (isinstanceInt args.limit = false ∧ isinstanceNone args.limit = false) ∨
  (isinstanceStr args.strip = false ∧ isinstanceNone args.strip = false ∧
    isinstanceBool args.strip = false) ∨
  isinstanceCallable args.validationFunc = false ∨
  (isinstanceCallable args.applyFunc = false ∧
    isinstanceNone args.applyFunc = false)

/-! ### Concrete configurations for witnesses and counterexamples -/

/-- A validation capability rejecting every candidate with reason
"invalid". -/
def wFailValidation : PyVal := .vCallable (fun _ => .error "invalid")

/-- A configuration with `limit=2`, no default, no timeout, always-failing
validation. -/
def wCfgLimit : LoopConfig :=
  { prompt := "p", default := none, timeout := none, limit := some 2,
    strip := .sBool true, applyFunc := none,
    validationFunc := wFailValidation, postValidateApplyFunc := none }

/-- A configuration with `default="9"`, `limit=1`, always-failing
validation. -/
def wCfgDefault : LoopConfig :=
  { wCfgLimit with default := some "9", limit := some 1 }

/-- A configuration with `timeout=5`, no limit, no default, always-failing
validation. -/
def wCfgTimeout : LoopConfig :=
  { wCfgLimit with timeout := some 5, limit := none }

/-- A configuration accepting exactly "42", with a post-validation transform
appending "!". -/
def wCfgPost : LoopConfig :=
  { prompt := "p", default := none, timeout := none, limit := none,
    strip := .sBool true, applyFunc := none,
    validationFunc :=
      .vCallable (fun s => if s = "42" then .ok "" else .error "not 42"),
    postValidateApplyFunc := some (.vCallable (fun s => .ok (s ++ "!"))) }

/-- Arguments whose `postValidateApplyFunc` is the integer 42 (not callable)
and whose other arguments are all well-shaped; validation accepts
everything. -/
def c8Args : DynArgs :=
  { validationFunc := .vCallable (fun _ => .ok ""),
    postValidateApplyFunc := .vInt 42 }

/-- Arguments whose `prompt` is the integer 3 (not a string) and whose other
arguments are well-shaped. -/
def c8BadPromptArgs : DynArgs :=
  { prompt := .vInt 3, validationFunc := .vCallable (fun _ => .ok "") }

/-! ### Helper lemmas -/

lemma readCount_append (a b : List Event) :
    readCount (a ++ b) = readCount a + readCount b := by
  induction a with
  | nil => simp [readCount]
  | cons e es ih => cases e <;> simp [readCount, ih] <;> omega

lemma postEvents_append (a b : List Event) :
    postEvents (a ++ b) = postEvents a ++ postEvents b := by
  induction a with
  | nil => simp [postEvents]
  | cons e es ih => cases e <;> simp [postEvents, ih]

lemma validateEvents_append (a b : List Event) :
    validateEvents (a ++ b) = validateEvents a ++ validateEvents b := by
  induction a with
  | nil => simp [validateEvents]
  | cons e es ih => cases e <;> simp [validateEvents, ih]

lemma checkLimitAndTimeout_useDefault {df : Option String} {st : ℚ}
    {T : Option ℚ} {tr : ℕ} {l : Option ℤ} {now : ℚ} {d : String}
    (h : checkLimitAndTimeout df st T tr l now = .useDefault d) :
    df = some d := by
  unfold checkLimitAndTimeout at h
  split at h <;> [skip; split at h] <;>
    cases hd : df <;> simp [hd] at h <;> simp [h]

lemma checkLimitAndTimeout_timeoutExc {df : Option String} {st : ℚ}
    {T : Option ℚ} {tr : ℕ} {l : Option ℤ} {now : ℚ}
    (h : checkLimitAndTimeout df st T tr l now = .timeoutExc) :
    df = none := by
  unfold checkLimitAndTimeout at h
  split at h <;> [skip; split at h] <;>
    cases hd : df <;> simp [hd] at h <;> simp [h]

lemma checkLimitAndTimeout_retryLimitExc {df : Option String} {st : ℚ}
    {T : Option ℚ} {tr : ℕ} {l : Option ℤ} {now : ℚ}
    (h : checkLimitAndTimeout df st T tr l now = .retryLimitExc) :
    df = none := by
  unfold checkLimitAndTimeout at h
  split at h <;> [skip; split at h] <;>
    cases hd : df <;> simp [hd] at h <;> simp [h]

lemma checkLimitAndTimeout_none_eq (st : ℚ) (T : Option ℚ) (tr : ℕ)
    (l : Option ℤ) (now : ℚ) :
    checkLimitAndTimeout none st T tr l now =
      (if timeoutExpired T st now then .timeoutExc
       else if limitReached l tr then .retryLimitExc
       else .nothing) := by
  unfold checkLimitAndTimeout
  split <;> [rfl; split <;> rfl]

lemma readCount_applyLogOf (a : Option PyVal) (i o : String) :
    readCount (applyLogOf a i o) = 0 := by
  cases a <;> simp [applyLogOf, readCount]

lemma postEvents_applyLogOf (a : Option PyVal) (i o : String) :
    postEvents (applyLogOf a i o) = [] := by
  cases a <;> simp [applyLogOf, postEvents]

lemma validateEvents_applyLogOf (a : Option PyVal) (i o : String) :
    validateEvents (applyLogOf a i o) = [] := by
  cases a <;> simp [applyLogOf, validateEvents]

lemma iteration_master (cfg : LoopConfig) (st : ℚ) (tries : ℕ) (line : String)
    (now : ℚ) {s : StepResult} {log : List Event}
    (h : genericIteration cfg st tries line now = (s, log)) :
    readCount log = 1 ∧ IterationSpec cfg s log := by
  simp only [genericIteration] at h
  by_cases hcond :
      stripInput cfg.strip line = "" ∧ cfg.default.isSome = true
  · rw [if_pos hcond] at h
    rcases hd : cfg.default with _ | d
    · rw [hd] at hcond
      simp at hcond
    · rw [Prod.mk.injEq] at h
      obtain ⟨hs, hl⟩ := h
      subst hs
      subst hl
      refine ⟨by simp [readCount], ?_⟩
      simp only [IterationSpec, hd, Option.getD_some]
      simp [validateEvents, applyEvents, postEvents]
  · rw [if_neg hcond] at h
    rcases hap : applyStage cfg.applyFunc (stripInput cfg.strip line)
        with e | c
    · simp only [hap] at h
      rw [Prod.mk.injEq] at h
      obtain ⟨hs, hl⟩ := h
      subst hs
      subst hl
      exact ⟨by simp [readCount], by simp [IterationSpec, postEvents]⟩
    · simp only [hap] at h
      rcases hv : callPy cfg.validationFunc c with e | r0
      · -- validation rejected: the bound-check decides the step
        simp only [hv] at h
        rcases hc : checkLimitAndTimeout cfg.default st cfg.timeout tries
            cfg.limit now with d2 | _ | _ | _ <;> simp only [hc] at h <;>
          (rw [Prod.mk.injEq] at h; obtain ⟨hs, hl⟩ := h; subst hs; subst hl) <;>
          refine ⟨by simp [readCount, readCount_append, readCount_applyLogOf],
            ?_⟩ <;> simp only [IterationSpec]
        · exact ⟨checkLimitAndTimeout_useDefault hc,
            by simp [postEvents, postEvents_append, postEvents_applyLogOf]⟩
        · exact ⟨checkLimitAndTimeout_timeoutExc hc,
            by simp [postEvents, postEvents_append, postEvents_applyLogOf]⟩
        · exact ⟨checkLimitAndTimeout_retryLimitExc hc,
            by simp [postEvents, postEvents_append, postEvents_applyLogOf]⟩
        · simp [postEvents, postEvents_append, postEvents_applyLogOf]
      · -- validation accepted: the post-transform decides the step
        simp only [hv] at h
        rcases hp : cfg.postValidateApplyFunc with _ | pv
        · simp only [hp] at h
          rw [Prod.mk.injEq] at h
          obtain ⟨hs, hl⟩ := h
          subst hs
          subst hl
          refine ⟨by simp [readCount, readCount_append, readCount_applyLogOf],
            ?_⟩
          simp only [IterationSpec]
          exact Or.inl ⟨hp,
            by simp [postEvents, postEvents_append, postEvents_applyLogOf]⟩
        · simp only [hp] at h
          rcases hpc : callPy pv c with e2 | r <;> simp only [hpc] at h <;>
            (rw [Prod.mk.injEq] at h; obtain ⟨hs, hl⟩ := h; subst hs;
              subst hl) <;>
            refine ⟨by simp [readCount, readCount_append,
              readCount_applyLogOf], ?_⟩ <;> simp only [IterationSpec]
          · simp [postEvents, postEvents_append, postEvents_applyLogOf]
          · refine Or.inr ⟨c, ?_, ?_⟩
            · simp [postEvents, postEvents_append, postEvents_applyLogOf]
            · simp [validateEvents, validateEvents_append,
                validateEvents_applyLogOf]

lemma checkLimitAndTimeout_some_bound {st : ℚ} {T : Option ℚ} {tr : ℕ}
    {l : Option ℤ} {now : ℚ} (d : String)
    (h : timeoutExpired T st now = true ∨ limitReached l tr = true) :
    checkLimitAndTimeout (some d) st T tr l now = .useDefault d := by
  unfold checkLimitAndTimeout
  rcases h with h | h
  · simp [h]
  · simp only [h, if_true]
    split <;> rfl

lemma loop_master (cfg : LoopConfig) (st : ℚ) :
    ∀ (inputs : List (String × ℚ)) (t : ℕ),
    LoopSpec cfg (genericLoop cfg st t inputs) := by
  intro inputs
  induction inputs with
  | nil =>
      intro t
      simp only [genericLoop, LoopSpec]
      refine ⟨by simp, by simp, by simp, by simp,
        fun _ => by simp [postEvents], by simp⟩
  | cons p rest ih =>
      intro t
      obtain ⟨line, now⟩ := p
      rcases hIt : genericIteration cfg st (t + 1) line now with ⟨s, log⟩
      have hm := iteration_master cfg st (t + 1) line now hIt
      cases s with
      | done o =>
          have hr : genericLoop cfg st t ((line, now) :: rest) = (o, log) := by
            simp [genericLoop, hIt]
          rw [hr]
          obtain ⟨-, hspec⟩ := hm
          cases o <;> simp only [IterationSpec] at hspec <;>
            simp only [LoopSpec]
          case okBlank d =>
            refine ⟨?_, by simp, by simp, by simp, fun _ => hspec.2.2.2, by simp⟩
            intro v hv
            simp only [Outcome.okBlank.injEq] at hv
            subst hv
            exact hspec.1
          case okBoundDefault d =>
            refine ⟨by simp, ?_, by simp, by simp, fun _ => hspec.2, by simp⟩
            intro v hv
            simp only [Outcome.okBoundDefault.injEq] at hv
            subst hv
            exact hspec.1
          case okValidated v0 =>
            refine ⟨by simp, by simp, by simp, by simp, ?_, ?_⟩
            · intro hne
              exact absurd rfl (hne v0)
            · intro v hv
              simp only [Outcome.okValidated.injEq] at hv
              subst hv
              exact hspec
          case timeoutSignal =>
            exact ⟨by simp, by simp, fun _ => hspec.1, by simp,
              fun _ => hspec.2, by simp⟩
          case retryLimitSignal =>
            exact ⟨by simp, by simp, by simp, fun _ => hspec.1,
              fun _ => hspec.2, by simp⟩
          case uncaught =>
            exact ⟨by simp, by simp, by simp, by simp, fun _ => hspec, by simp⟩
      | retry =>
          have hspec : postEvents log = [] := hm.2
          have hr : genericLoop cfg st t ((line, now) :: rest) =
              ((genericLoop cfg st (t + 1) rest).1,
               log ++ (genericLoop cfg st (t + 1) rest).2) := by
            simp [genericLoop, hIt]
          rw [hr]
          obtain ⟨ih1, ih2, ih3, ih4, ih5, ih6⟩ := ih (t + 1)
          refine ⟨ih1, ih2, ih3, ih4, ?_, ?_⟩
          · intro hne
            simp [postEvents_append, hspec, ih5 hne]
          · intro v hv
            rcases ih6 v hv with ⟨h1, h2⟩ | ⟨c, h1, h2⟩
            · exact Or.inl ⟨h1, by simp [postEvents_append, hspec, h2]⟩
            · refine Or.inr ⟨c, by simp [postEvents_append, hspec, h1], ?_⟩
              rw [validateEvents_append]
              exact List.mem_append_right _ h2

/-- The shape of a loop iteration whose attempt fails validation, under no
default: the step is fully decided by the timeout and limit tests, and one
line is read. -/
lemma iteration_fail_none (cfg : LoopConfig) (st : ℚ) (tries : ℕ)
    (line : String) (now : ℚ) (hdef : cfg.default = none)
    (hfail : alwaysFails cfg.validationFunc)
    (happ : applyTotal cfg.applyFunc) :
    ∃ log, genericIteration cfg st tries line now =
      ((if timeoutExpired cfg.timeout st now then .done .timeoutSignal
        else if limitReached cfg.limit tries then .done .retryLimitSignal
        else .retry), log) ∧ readCount log = 1 := by
  obtain ⟨c, hc⟩ := happ (stripInput cfg.strip line)
  obtain ⟨e, he⟩ := hfail c
  simp only [genericIteration, hdef, Option.isSome_none, Bool.false_eq_true,
    and_false, if_false, hc, he, checkLimitAndTimeout_none_eq]
  by_cases hT : timeoutExpired cfg.timeout st now
  · simp only [hT, if_true]
    exact ⟨_, rfl, by simp [readCount, readCount_append, readCount_applyLogOf]⟩
  · simp only [hT, if_false, Bool.false_eq_true]
    by_cases hL : limitReached cfg.limit tries
    · simp only [hL, if_true]
      exact ⟨_, rfl,
        by simp [readCount, readCount_append, readCount_applyLogOf]⟩
    · simp only [hL, if_false, Bool.false_eq_true]
      exact ⟨_, rfl,
        by simp [readCount, readCount_append, readCount_applyLogOf]⟩

lemma loop_blocked (cfg : LoopConfig) (st : ℚ) (t : ℕ) :
    (genericLoop cfg st t []).1 = .blocked := rfl

lemma loop_limit_aux (cfg : LoopConfig) (st : ℚ) (N : ℕ)
    (hdef : cfg.default = none) (hlim : cfg.limit = some (N : ℤ))
    (hfail : alwaysFails cfg.validationFunc)
    (happ : applyTotal cfg.applyFunc) :
    ∀ (inputs : List (String × ℚ)) (t : ℕ), t < N →
    N - t ≤ inputs.length →
    (∀ p ∈ inputs.take (N - t), timeoutExpired cfg.timeout st p.2 = false) →
    (genericLoop cfg st t inputs).1 = .retryLimitSignal ∧
    readCount (genericLoop cfg st t inputs).2 = N - t := by
  intro inputs
  induction inputs with
  | nil =>
      intro t ht hlen _
      simp at hlen
      omega
  | cons p rest ih =>
      intro t ht hlen hnoT
      obtain ⟨line, now⟩ := p
      have htake : ((line, now) :: rest).take (N - t) =
          (line, now) :: rest.take (N - t - 1) := by
        have hnt : N - t = (N - t - 1) + 1 := by omega
        conv_lhs => rw [hnt]
        rw [List.take_succ_cons]
      have hT : timeoutExpired cfg.timeout st now = false := by
        have := hnoT (line, now) (by rw [htake]; exact List.mem_cons_self _ _)
        exact this
      obtain ⟨log, hIt, hrc⟩ :=
        iteration_fail_none cfg st (t + 1) line now hdef hfail happ
      rw [hT] at hIt
      by_cases hEnd : N ≤ t + 1
      · have hL : limitReached cfg.limit (t + 1) = true := by
          simp only [limitReached, hlim, decide_eq_true_eq]
          exact_mod_cast hEnd
        simp only [hL, Bool.false_eq_true, if_false, if_true] at hIt
        have hr : genericLoop cfg st t ((line, now) :: rest) =
            (.retryLimitSignal, log) := by
          simp [genericLoop, hIt]
        rw [hr]
        exact ⟨rfl, by rw [hrc]; omega⟩
      · have hL : limitReached cfg.limit (t + 1) = false := by
          simp only [limitReached, hlim, decide_eq_false_iff_not]
          omega
        simp only [hL, Bool.false_eq_true, if_false] at hIt
        have hr : genericLoop cfg st t ((line, now) :: rest) =
            ((genericLoop cfg st (t + 1) rest).1,
             log ++ (genericLoop cfg st (t + 1) rest).2) := by
          simp [genericLoop, hIt]
        rw [hr]
        have hrec := ih (t + 1) (by omega) (by simp at hlen ⊢; omega)
          (by
            intro q hq
            refine hnoT q ?_
            rw [htake]
            refine List.mem_cons_of_mem _ ?_
            have : N - t - 1 = N - (t + 1) := by omega
            rw [this]
            exact hq)
        refine ⟨hrec.1, ?_⟩
        rw [readCount_append, hrc, hrec.2]
        omega

lemma loop_timeout_aux (cfg : LoopConfig) (st : ℚ)
    (hdef : cfg.default = none) (hfail : alwaysFails cfg.validationFunc)
    (happ : applyTotal cfg.applyFunc) (line : String) (now : ℚ)
    (rest : List (String × ℚ))
    (hexp : timeoutExpired cfg.timeout st now = true) :
    ∀ (pre : List (String × ℚ)) (t : ℕ),
    (∀ j (hj : j < pre.length),
      timeoutExpired cfg.timeout st (pre.get ⟨j, hj⟩).2 = false ∧
      limitReached cfg.limit (t + j + 1) = false) →
    (genericLoop cfg st t (pre ++ (line, now) :: rest)).1 = .timeoutSignal ∧
    readCount (genericLoop cfg st t (pre ++ (line, now) :: rest)).2 =
      pre.length + 1 := by
  intro pre
  induction pre with
  | nil =>
      intro t _
      obtain ⟨log, hIt, hrc⟩ :=
        iteration_fail_none cfg st (t + 1) line now hdef hfail happ
      simp only [hexp, if_true] at hIt
      have hr : genericLoop cfg st t ([] ++ (line, now) :: rest) =
          (.timeoutSignal, log) := by
        simp [genericLoop, hIt]
      rw [hr]
      exact ⟨rfl, by simpa using hrc⟩
  | cons q pre' ih =>
      intro t hpre
      obtain ⟨line0, now0⟩ := q
      have h0 := hpre 0 (by simp)
      obtain ⟨log, hIt, hrc⟩ :=
        iteration_fail_none cfg st (t + 1) line0 now0 hdef hfail happ
      have hT0 : timeoutExpired cfg.timeout st now0 = false := h0.1
      have hL0 : limitReached cfg.limit (t + 1) = false := by
        have := h0.2
        simpa using this
      rw [hT0, hL0] at hIt
      simp only [Bool.false_eq_true, if_false] at hIt
      have hr : genericLoop cfg st t
          (((line0, now0) :: pre') ++ (line, now) :: rest) =
          ((genericLoop cfg st (t + 1) (pre' ++ (line, now) :: rest)).1,
           log ++
             (genericLoop cfg st (t + 1) (pre' ++ (line, now) :: rest)).2) := by
        simp [genericLoop, hIt]
      rw [hr]
      have hrec := ih (t + 1) (by
        intro j hj
        have hs := hpre (j + 1) (by simpa using Nat.succ_lt_succ hj)
        have harith : t + (j + 1) + 1 = t + 1 + j + 1 := by omega
        rw [harith] at hs
        exact hs)
      refine ⟨hrec.1, ?_⟩
      rw [readCount_append, hrc, hrec.2]
      simp
      omega

/-! ### Claim theorems -/

/-- C1: for every configuration with `limit = N` (N ≥ 1), no default, and a
validation capability that rejects every candidate (with the timeout not
expiring on any of those attempts), the loop reads exactly N lines of input
and then raises the RetryLimit signal — never after N−1 or N+1 reads; the
limit fires when tries ≥ limit. -/
theorem limit_fires_after_exactly_N_reads (cfg : LoopConfig) (st : ℚ) (N : ℕ)
    (inputs : List (String × ℚ)) (hN : 1 ≤ N) (hdef : cfg.default = none)
    (hlim : cfg.limit = some (N : ℤ))
    (hfail : alwaysFails cfg.validationFunc)
    (happ : applyTotal cfg.applyFunc) (hlen : N ≤ inputs.length)
    (hnoT : ∀ p ∈ inputs.take N, timeoutExpired cfg.timeout st p.2 = false) :
    (genericLoop cfg st 0 inputs).1 = .retryLimitSignal ∧
    readCount (genericLoop cfg st 0 inputs).2 = N := by
  have h := loop_limit_aux cfg st N hdef hlim hfail happ inputs 0 (by omega)
    (by simpa using hlen) (by simpa using hnoT)
  simpa using h

/-- C1 witness: with `limit=2`, no default, always-failing validation and
two available input lines, the loop raises RetryLimit after exactly two
reads. -/
theorem limit_fires_after_exactly_N_reads_witness :
    (genericLoop wCfgLimit 0 0 [("a", 0), ("b", 0)]).1 =
      Outcome.retryLimitSignal ∧
    readCount (genericLoop wCfgLimit 0 0 [("a", 0), ("b", 0)]).2 = 2 :=
  limit_fires_after_exactly_N_reads wCfgLimit 0 2 [("a", 0), ("b", 0)]
    (by norm_num) rfl rfl (fun _ => ⟨.raised "invalid", rfl⟩)
    (fun s => ⟨s, rfl⟩) (by norm_num) (fun p _ => rfl)

/-- C2: in the bound-check helper, the timeout condition is evaluated
strictly before the attempt-limit condition: whenever the timeout has
expired and tries ≥ limit with no default, the result is the Timeout
signal, never the RetryLimit signal. -/
theorem timeout_checked_before_limit (st T : ℚ) (tries : ℕ) (L : ℤ)
    (now : ℚ) (hexp : st + T < now) (hlim : L ≤ (tries : ℤ)) :
    checkLimitAndTimeout none st (some T) tries (some L) now = .timeoutExc ∧
    checkLimitAndTimeout none st (some T) tries (some L) now ≠
      .retryLimitExc := by
  have h1 : timeoutExpired (some T) st now = true := by
    simp [timeoutExpired, hexp]
  rw [checkLimitAndTimeout_none_eq]
  simp [h1]

/-- C2 witness: with startTime 0, timeout 1, clock reading 2 (expired) and
tries 1 ≥ limit 1, the helper reports Timeout, not RetryLimit. -/
theorem timeout_checked_before_limit_witness :
    checkLimitAndTimeout none 0 (some 1) 1 (some 1) 2 = .timeoutExc ∧
    checkLimitAndTimeout none 0 (some 1) 1 (some 1) 2 ≠ .retryLimitExc :=
  timeout_checked_before_limit 0 1 1 1 2 (by norm_num) (by norm_num)

/-- C3: with a non-null default, if the first line read strips to the empty
string the loop returns the default immediately on that iteration, after
exactly one read, with no pre-validation transform applied and no validation
call made. -/
theorem blank_default_short_circuit (cfg : LoopConfig) (st : ℚ) (d : String)
    (line : String) (now : ℚ) (rest : List (String × ℚ))
    (hdef : cfg.default = some d)
    (hblank : stripInput cfg.strip line = "") :
    genericLoop cfg st 0 ((line, now) :: rest) =
      (.okBlank d, [.printPrompt cfg.prompt, .readLine line]) ∧
    readCount (genericLoop cfg st 0 ((line, now) :: rest)).2 = 1 ∧
    validateEvents (genericLoop cfg st 0 ((line, now) :: rest)).2 = [] ∧
    applyEvents (genericLoop cfg st 0 ((line, now) :: rest)).2 = [] ∧
    postEvents (genericLoop cfg st 0 ((line, now) :: rest)).2 = [] := by
  have hIt : genericIteration cfg st 1 line now =
      (.done (.okBlank d), [.printPrompt cfg.prompt, .readLine line]) := by
    simp [genericIteration, hblank, hdef]
  have hr : genericLoop cfg st 0 ((line, now) :: rest) =
      (.okBlank d, [.printPrompt cfg.prompt, .readLine line]) := by
    simp [genericLoop, hIt]
  rw [hr]
  exact ⟨rfl, rfl, rfl, rfl, rfl⟩

/-- C3 witness: with `default="9"` and the blank first input, the loop
returns "9" after one read and no transform or validation call. -/
theorem blank_default_short_circuit_witness :
    genericLoop wCfgDefault 0 0 [("", 0)] =
      (Outcome.okBlank "9", [Event.printPrompt "p", Event.readLine ""]) ∧
    readCount (genericLoop wCfgDefault 0 0 [("", 0)]).2 = 1 ∧
    validateEvents (genericLoop wCfgDefault 0 0 [("", 0)]).2 = [] ∧
    applyEvents (genericLoop wCfgDefault 0 0 [("", 0)]).2 = [] ∧
    postEvents (genericLoop wCfgDefault 0 0 [("", 0)]).2 = [] :=
  blank_default_short_circuit wCfgDefault 0 "9" "" 0 [] rfl rfl

/-- C4: with a non-null default, the loop never raises a Timeout or
RetryLimit signal on any run, and whenever a bound (timeout or limit) is
reached on an attempt whose validation failed, that iteration returns the
default value. -/
theorem default_absorbs_bounds (cfg : LoopConfig) (st : ℚ) (d : String)
    (hdef : cfg.default = some d) :
    (∀ (t : ℕ) (inputs : List (String × ℚ)),
      (genericLoop cfg st t inputs).1 ≠ .timeoutSignal ∧
      (genericLoop cfg st t inputs).1 ≠ .retryLimitSignal) ∧
    (∀ (tries : ℕ) (line : String) (now : ℚ) (c : String) (e : PyErr),
      stripInput cfg.strip line ≠ "" →
      applyStage cfg.applyFunc (stripInput cfg.strip line) = .ok c →
      callPy cfg.validationFunc c = .error e →
      (timeoutExpired cfg.timeout st now = true ∨
        limitReached cfg.limit tries = true) →
      (genericIteration cfg st tries line now).1 =
        .done (.okBoundDefault d)) := by
  constructor
  · intro t inputs
    obtain ⟨-, -, h3, h4, -, -⟩ := loop_master cfg st inputs t
    constructor
    · intro hT
      have hc := h3 hT
      rw [hdef] at hc
      exact Option.noConfusion hc
    · intro hT
      have hc := h4 hT
      rw [hdef] at hc
      exact Option.noConfusion hc
  · intro tries line now c e hne hap hv hbound
    have hcheck := @checkLimitAndTimeout_some_bound st cfg.timeout tries
      cfg.limit now d hbound
    simp only [genericIteration]
    rw [if_neg (fun hco => hne hco.1)]
    simp only [hap, hv, hdef, hcheck]

/-- C4 witness: with `default="9"` and `limit=1`, a failing one-line run
does not raise, and the iteration that hits the limit on a failed attempt
returns "9". -/
theorem default_absorbs_bounds_witness :
    ((genericLoop wCfgDefault 0 0 [("a", 0)]).1 ≠ Outcome.timeoutSignal ∧
     (genericLoop wCfgDefault 0 0 [("a", 0)]).1 ≠
       Outcome.retryLimitSignal) ∧
    (genericIteration wCfgDefault 0 1 "a" 0).1 =
      .done (.okBoundDefault "9") :=
  ⟨(default_absorbs_bounds wCfgDefault 0 "9" rfl).1 0 [("a", 0)],
   (default_absorbs_bounds wCfgDefault 0 "9" rfl).2 1 "a" 0 "a"
     (.raised "invalid") (by decide) rfl rfl (Or.inr rfl)⟩

/-- C5: with no default and always-failing validation, if the clock reading
has not expired and the limit has not fired on any of the earlier attempts,
then the first failed attempt whose elapsed time exceeds the timeout raises
the Timeout signal — with no condition on the limit at that attempt — and
the run used exactly one read per attempt; moreover on an exhausted input
trace the run is blocked in the read, never a Timeout. -/
theorem timeout_fires_on_first_expired_failure (cfg : LoopConfig) (st : ℚ)
    (pre : List (String × ℚ)) (line : String) (now : ℚ)
    (rest : List (String × ℚ)) (hdef : cfg.default = none)
    (hfail : alwaysFails cfg.validationFunc)
    (happ : applyTotal cfg.applyFunc)
    (hpre : ∀ j (hj : j < pre.length),
      timeoutExpired cfg.timeout st (pre.get ⟨j, hj⟩).2 = false ∧
      limitReached cfg.limit (j + 1) = false)
    (hexp : timeoutExpired cfg.timeout st now = true) :
    ((genericLoop cfg st 0 (pre ++ (line, now) :: rest)).1 =
       .timeoutSignal ∧
     readCount (genericLoop cfg st 0 (pre ++ (line, now) :: rest)).2 =
       pre.length + 1) ∧
    ∀ t : ℕ, (genericLoop cfg st t []).1 = .blocked := by
  refine ⟨?_, fun t => loop_blocked cfg st t⟩
  exact loop_timeout_aux cfg st hdef hfail happ line now rest hexp pre 0
    (fun j hj => by simpa using hpre j hj)

/-- C5 witness: with `timeout=5`, no limit, no default, a first failed
attempt at clock 1 and a second at clock 6, the loop raises Timeout after
the second read; an empty trace blocks. -/
theorem timeout_fires_on_first_expired_failure_witness :
    ((genericLoop wCfgTimeout 0 0 [("a", 1), ("b", 6)]).1 =
       Outcome.timeoutSignal ∧
     readCount (genericLoop wCfgTimeout 0 0 [("a", 1), ("b", 6)]).2 = 2) ∧
    ∀ t : ℕ, (genericLoop wCfgTimeout 0 t []).1 = .blocked :=
  timeout_fires_on_first_expired_failure wCfgTimeout 0 [("a", 1)] "b" 6 []
    rfl (fun _ => ⟨.raised "invalid", rfl⟩) (fun s => ⟨s, rfl⟩)
    (fun j hj => by
      match j, hj with
      | 0, _ =>
        exact ⟨by norm_num [timeoutExpired, wCfgTimeout, wCfgLimit], rfl⟩)
    (by norm_num [timeoutExpired, wCfgTimeout, wCfgLimit])

/-- C6 counterexample: the bound-check helper is not a function of its five
explicit inputs alone — the source reads the session clock internally via
time.time() (line 70), so two calls with identical five arguments but
different internal clock readings give different results. -/
theorem checkLimitAndTimeout_clock_dependence :
    checkLimitAndTimeout none 0 (some 1) 1 none 0 ≠
      checkLimitAndTimeout none 0 (some 1) 1 none 2 := by
  have h0 : timeoutExpired (some 1) 0 0 = false := by
    norm_num [timeoutExpired]
  have h2 : timeoutExpired (some 1) 0 2 = true := by
    norm_num [timeoutExpired]
  rw [checkLimitAndTimeout_none_eq, checkLimitAndTimeout_none_eq, h0, h2]
  simp [limitReached]

/-- C6 amended: the bound-check helper is side-effect free and deterministic
in its five explicit inputs together with the wall-clock reading it takes
internally; the clock reading influences the result only through the
timeout-expiry comparison, so two calls whose clock readings agree on that
comparison give identical results. -/
theorem checkLimitAndTimeout_clock_congruence (d : Option String) (st : ℚ)
    (T : Option ℚ) (tr : ℕ) (l : Option ℤ) (now now' : ℚ)
    (h : timeoutExpired T st now = timeoutExpired T st now') :
    checkLimitAndTimeout d st T tr l now =
      checkLimitAndTimeout d st T tr l now' := by
  unfold checkLimitAndTimeout
  rw [h]

/-- C6 witness: two unexpired clock readings give the same result. -/
theorem checkLimitAndTimeout_clock_congruence_witness :
    timeoutExpired (some 1) 0 0 = timeoutExpired (some 1) 0 (1 / 2) ∧
    checkLimitAndTimeout none 0 (some 1) 0 none 0 =
      checkLimitAndTimeout none 0 (some 1) 0 none (1 / 2) :=
  ⟨by norm_num [timeoutExpired],
   checkLimitAndTimeout_clock_congruence none 0 (some 1) 0 none 0 (1 / 2)
     (by norm_num [timeoutExpired])⟩

/-- C7: evaluating the wrappers' validation calls at concrete caller
arguments shows the caller's domain parameters are NOT bound into the
validation rule: inputRegex passes regex='' and flags=0 regardless of its
arguments (source line 359), and inputChoice/inputMenu pass
numbered=False, lettered=False, caseSensitive=False regardless of theirs
(source lines 248-250, 268-270). -/
theorem wrappers_drop_domain_params :
    (inputRegexValidationCall "[0-9]+" 2 "abc").regex = "" ∧
    (inputRegexValidationCall "[0-9]+" 2 "abc").regex ≠ "[0-9]+" ∧
    (inputRegexValidationCall "[0-9]+" 2 "abc").flags = 0 ∧
    (inputChoiceValidationCall ["a", "b"] true true true "B").numbered =
      false ∧
    (inputChoiceValidationCall ["a", "b"] true true true "B").lettered =
      false ∧
    (inputChoiceValidationCall ["a", "b"] true true true "B").caseSensitive =
      false ∧
    (inputMenuValidationCall ["a", "b"] true true true "B").caseSensitive =
      false :=
  ⟨rfl, by decide, rfl, rfl, rfl, rfl, rfl⟩

/-- C8 counterexample: a configuration whose postValidateApplyFunc is the
non-callable integer 42 passes every parameter check, performs a read (I/O),
and only then fails with an uncaught TypeError — no configuration error is
raised before I/O. -/
theorem postValidateApplyFunc_not_failfast :
    genericInput c8Args 0 [("x", 0)] =
      (.uncaught, [.printPrompt "", .readLine "x",
                   .validateCall "x" none]) ∧
    readCount (genericInput c8Args 0 [("x", 0)]).2 = 1 :=
  ⟨rfl, rfl⟩

/-- C8 amended: for every configuration in which one of the checked
arguments (the generic constraint bundle, prompt, default, timeout, limit,
strip, validationFunc, applyFunc) has a wrong type or shape, the loop raises
a configuration error before performing any I/O — the event log is empty —
and never coerces the bad value; postValidateApplyFunc is not checked. -/
theorem genericInput_failfast_checked_args (args : DynArgs) (st : ℚ)
    (inputs : List (String × ℚ)) (h : badCheckedArg args) :
    ∃ m, genericInput args st inputs = (.configErr m, []) := by
  unfold genericInput
  rcases hg : validateGenericParameters args.blank args.strip
      args.whitelistRegexes args.blacklistRegexes with m | u
  · exact ⟨m, by simp [hg]⟩
  · simp only [hg]
    split_ifs with h1 h2 h3 h4 h5 h6 h7
    · exfalso
      rcases h with ⟨m, hm⟩ | hA | ⟨hA, hB⟩ | ⟨hA, hB, hC⟩ | ⟨hA, hB⟩ |
        ⟨hA, hB, hC⟩ | hA | ⟨hA, hB⟩
      · rw [hg] at hm
        exact Except.noConfusion hm
      · simp [hA] at h1
      · simp [hA, hB] at h2
      · simp [hA, hB, hC] at h3
      · simp [hA, hB] at h4
      · simp [hA, hB, hC] at h5
      · simp [hA] at h6
      · simp [hA, hB] at h7
    all_goals exact ⟨_, rfl⟩

/-- C8 amended witness: a non-string prompt is rejected with a configuration
error and an empty event log. -/
theorem genericInput_failfast_checked_args_witness :
    ∃ m, genericInput c8BadPromptArgs 0 [("x", 0)] = (.configErr m, []) :=
  genericInput_failfast_checked_args c8BadPromptArgs 0 [("x", 0)]
    (Or.inr (Or.inl rfl))

/-- C9: with a post-validation transform configured, the transform is
applied exactly once per run that ends in a validated value — on the
accepted candidate only — and never applied at all on runs that end any
other way (default, signal, or blocked). -/
theorem post_transform_applied_exactly_once (cfg : LoopConfig) (pv : PyVal)
    (st : ℚ) (hpost : cfg.postValidateApplyFunc = some pv) (t : ℕ)
    (inputs : List (String × ℚ)) :
    (∀ v, (genericLoop cfg st t inputs).1 = .okValidated v →
      ∃ c, postEvents (genericLoop cfg st t inputs).2 = [(c, v)] ∧
        (c, none) ∈ validateEvents (genericLoop cfg st t inputs).2) ∧
    ((∀ v, (genericLoop cfg st t inputs).1 ≠ .okValidated v) →
      postEvents (genericLoop cfg st t inputs).2 = []) := by
  obtain ⟨-, -, -, -, h5, h6⟩ := loop_master cfg st inputs t
  refine ⟨?_, h5⟩
  intro v hv
  rcases h6 v hv with ⟨h1, -⟩ | hc
  · rw [hpost] at h1
    exact Option.noConfusion h1
  · exact hc

/-- C9 witness: a run that rejects "a" and then accepts "42" records exactly
one post-transform application, on the accepted candidate "42". -/
theorem post_transform_applied_exactly_once_witness :
    ∃ c, postEvents (genericLoop wCfgPost 0 0 [("a", 0), ("42", 0)]).2 =
        [(c, "42!")] ∧
      (c, none) ∈
        validateEvents (genericLoop wCfgPost 0 0 [("a", 0), ("42", 0)]).2 :=
  (post_transform_applied_exactly_once wCfgPost
    (.vCallable (fun s => .ok (s ++ "!"))) 0 rfl 0
    [("a", 0), ("42", 0)]).1 "42!" rfl

/-- C10: whenever the loop returns the configured default — by the blank
short-circuit or by a bound with a default — the returned value is exactly
the configured default, the post-validation transform is never applied in
the run, and on a blank-short-circuit iteration no validation call and no
pre-validation transform occurs at all. -/
theorem default_returned_verbatim (cfg : LoopConfig) (st : ℚ) (d : String)
    (hdef : cfg.default = some d) :
    (∀ (t : ℕ) (inputs : List (String × ℚ)) (v : String),
      ((genericLoop cfg st t inputs).1 = .okBlank v ∨
       (genericLoop cfg st t inputs).1 = .okBoundDefault v) →
      v = d ∧ postEvents (genericLoop cfg st t inputs).2 = []) ∧
    (∀ (tries : ℕ) (line : String) (now : ℚ) (v : String)
      (log : List Event),
      genericIteration cfg st tries line now = (.done (.okBlank v), log) →
      validateEvents log = [] ∧ applyEvents log = [] ∧
      postEvents log = []) := by
  constructor
  · intro t inputs v hv
    obtain ⟨h1, h2, -, -, h5, -⟩ := loop_master cfg st inputs t
    have hvd : cfg.default = some v := by
      rcases hv with hv | hv
      exacts [h1 v hv, h2 v hv]
    rw [hdef] at hvd
    refine ⟨(Option.some.inj hvd).symm, h5 ?_⟩
    intro w
    rcases hv with hv | hv <;> rw [hv] <;> simp
  · intro tries line now v log hIt
    have hspec := (iteration_master cfg st tries line now hIt).2
    simp only [IterationSpec] at hspec
    exact ⟨hspec.2.1, hspec.2.2.1, hspec.2.2.2⟩

/-- C10 witness: a blank-input run with `default="9"` returns exactly "9"
with no post-transform application, and the blank iteration records no
validation or transform call. -/
theorem default_returned_verbatim_witness :
    ("9" = "9" ∧ postEvents (genericLoop wCfgDefault 0 0 [("", 0)]).2 = []) ∧
    (validateEvents [Event.printPrompt "p", Event.readLine ""] = [] ∧
     applyEvents [Event.printPrompt "p", Event.readLine ""] = [] ∧
     postEvents [Event.printPrompt "p", Event.readLine ""] = []) :=
  ⟨(default_returned_verbatim wCfgDefault 0 "9" rfl).1 0 [("", 0)] "9"
     (Or.inl rfl),
   (default_returned_verbatim wCfgDefault 0 "9" rfl).2 1 "" 0 "9"
     [Event.printPrompt "p", Event.readLine ""] rfl⟩

end PyInputPlus
